import Mathlib

/-!
# NEUROAEGIS-CORTEX — verification of the analysis/planning pipeline

Shallow embedding of the adaptive analysis orchestration and action-planning
pipeline of the NeuroAegis Cortex repository:

* the Planner Agent's plan validation and severity-indexed fallback plans
  (`PlannerAgent._validate_plan`, `PlannerAgent._create_fallback_plan`,
  docs/TECHNICAL_DOCUMENTATION.md §9.2);
* the Vision Agent's result normalization and safe defaults
  (`VisionAgent._validate_result`, `VisionAgent._default_result`,
  docs/TECHNICAL_DOCUMENTATION.md §9.1);
* the frontend Gemini service: model selection, request building with
  thought-signature continuation, response parsing, and the recent-threat
  pressure counter (frontend/src/services/geminiService.ts,
  frontend/src/constants.ts).

Python dictionaries with optional fields are embedded as structures of
`Option`-typed fields (`dict.get(k, d)` becomes `Option.getD`); JavaScript
truthiness tests on optional strings/numbers are embedded explicitly.
-/

namespace NeuroAegis

/-! ## Planner Agent (docs/TECHNICAL_DOCUMENTATION.md §9.2) -/

/-- `PlannerAgent.VALID_ACTIONS`: the closed action vocabulary.
The Python set is embedded as a list; membership is the only operation used. -/
def VALID_ACTIONS : List String :=
  ["save_evidence", "log_incident", "record_video", "capture_snapshot",
   "send_alert", "escalate", "notify_staff", "contact_authorities",
   "monitor", "sound_alarm", "lock_door"]

/-- The four recognized priority strings tested by `_validate_plan`. -/
def PRIORITIES : List String := ["immediate", "high", "medium", "low"]

/-- A raw planner step as decoded from the model's JSON array: every field may
be absent (`step.get(...)` in Python).  Parameter values are stringified; no
property under verification inspects them. -/
structure RawStep where
  step : Option Int
  action : Option String
  priority : Option String
  parameters : Option (List (String × String))
  reasoning : Option String
deriving DecidableEq, Repr

/-- A validated plan step as produced by `_validate_plan` /
`_create_fallback_plan`. -/
structure PlanStep where
  step : Int
  action : String
  priority : String
  parameters : List (String × String)
  reasoning : String
deriving DecidableEq, Repr

/-- The loop body of `PlannerAgent._validate_plan`.  `n` is `len(validated)`,
the number of steps already validated, used as the default for a missing
`step` field (`step.get('step', len(validated) + 1)`). -/
def validate_go : List RawStep → Nat → List PlanStep
  | [], _ => []
  | st :: rest, n =>
    let action0 := st.action.getD "log_incident"
    let action := if action0 ∈ VALID_ACTIONS then action0 else "log_incident"
    let priority0 := st.priority.getD "medium"
    let priority := if priority0 ∈ PRIORITIES then priority0 else "medium"
    { step := st.step.getD (Int.ofNat n + 1)
      action := action
      priority := priority
      parameters := st.parameters.getD []
      reasoning := st.reasoning.getD "" } :: validate_go rest (n + 1)

/-- `PlannerAgent._validate_plan`: validate every step of a raw plan. -/
def validate_plan (plan : List RawStep) : List PlanStep :=
  validate_go plan 0

/-- `PlannerAgent._create_fallback_plan`: deterministic severity-indexed
static plan.  The Python reads `incident.get('severity', 'low')`, embedded
here as an `Option String` argument with default `"low"`; the `else` branch
covers `"critical"` and every unrecognized severity. -/
def create_fallback_plan (severity : Option String) : List PlanStep :=
  let sev := severity.getD "low"
  if sev = "low" then
    [⟨1, "save_evidence", "immediate", [], "Evidence preservation"⟩,
     ⟨2, "log_incident", "medium", [], "Audit trail"⟩]
  else if sev = "medium" then
    [⟨1, "save_evidence", "immediate", [], "Evidence preservation"⟩,
     ⟨2, "send_alert", "high", [("channels", "email")], "Notification"⟩,
     ⟨3, "monitor", "high", [("duration", "300")], "Enhanced observation"⟩,
     ⟨4, "log_incident", "medium", [], "Audit trail"⟩]
  else if sev = "high" then
    [⟨1, "save_evidence", "immediate", [], "Evidence preservation"⟩,
     ⟨2, "send_alert", "immediate", [("channels", "email,sms")], "Urgent notification"⟩,
     ⟨3, "lock_door", "high", [], "Access control"⟩,
     ⟨4, "sound_alarm", "high", [], "Deterrence"⟩,
     ⟨5, "contact_authorities", "high", [], "Law enforcement"⟩,
     ⟨6, "log_incident", "medium", [], "Audit trail"⟩]
  else
    [⟨1, "save_evidence", "immediate", [], "Evidence preservation"⟩,
     ⟨2, "contact_authorities", "immediate",
        [("service", "police"), ("priority", "emergency")], "Emergency response"⟩,
     ⟨3, "send_alert", "immediate", [("channels", "email,sms,push")], "Multi-channel alert"⟩,
     ⟨4, "sound_alarm", "immediate", [("pattern", "emergency")], "Maximum deterrence"⟩,
     ⟨5, "escalate", "immediate", [], "Human intervention"⟩,
     ⟨6, "record_video", "high", [("duration", "600")], "Continuous recording"⟩,
     ⟨7, "notify_staff", "high", [], "On-site awareness"⟩,
     ⟨8, "log_incident", "medium", [], "Audit trail"⟩]

/-! ### Structural lemmas about `_validate_plan` -/

lemma validate_go_length (raw : List RawStep) :
    ∀ n, (validate_go raw n).length = raw.length := by
  induction raw with
  | nil => intro n; rfl
  | cons a l ih => intro n; simp [validate_go, ih]

lemma validate_go_map_action (raw : List RawStep) :
    ∀ n, (validate_go raw n).map PlanStep.action =
      raw.map (fun st =>
        if st.action.getD "log_incident" ∈ VALID_ACTIONS then st.action.getD "log_incident"
        else "log_incident") := by
  induction raw with
  | nil => intro n; rfl
  | cons a l ih => intro n; simp [validate_go, ih]

lemma validate_go_map_priority (raw : List RawStep) :
    ∀ n, (validate_go raw n).map PlanStep.priority =
      raw.map (fun st =>
        if st.priority.getD "medium" ∈ PRIORITIES then st.priority.getD "medium"
        else "medium") := by
  induction raw with
  | nil => intro n; rfl
  | cons a l ih => intro n; simp [validate_go, ih]

lemma validate_go_map_reasoning (raw : List RawStep) :
    ∀ n, (validate_go raw n).map PlanStep.reasoning =
      raw.map (fun st => st.reasoning.getD "") := by
  induction raw with
  | nil => intro n; rfl
  | cons a l ih => intro n; simp [validate_go, ih]

lemma validate_go_map_step (raw : List RawStep) :
    ∀ n, (validate_go raw n).map PlanStep.step =
      List.zipWith (fun st i => st.step.getD (Int.ofNat i)) raw
        (List.range' (n + 1) raw.length) := by
  induction raw with
  | nil => intro n; rfl
  | cons a l ih =>
    intro n
    simp only [validate_go, List.length_cons, List.range'_succ, List.map_cons,
      List.zipWith_cons_cons, List.cons.injEq]
    exact ⟨rfl, ih (n + 1)⟩

end NeuroAegis

namespace NeuroAegis

/-- C1: for every severity in {low, medium, high, critical},
`_create_fallback_plan` returns a deterministic plan with exactly
2, 4, 6 and 8 steps respectively, and for *every* severity input
(absent or unrecognized included) it returns a non-empty plan whose first
step is `save_evidence` with priority `immediate` — the fallback generator
is total and never fails. -/
theorem fallback_plan_sizes_and_first_step :
    (create_fallback_plan (some "low")).length = 2 ∧
    (create_fallback_plan (some "medium")).length = 4 ∧
    (create_fallback_plan (some "high")).length = 6 ∧
    (create_fallback_plan (some "critical")).length = 8 ∧
    ∀ severity : Option String,
      (create_fallback_plan severity).head?.map
        (fun st => (st.action, st.priority)) = some ("save_evidence", "immediate") := by
  refine ⟨rfl, rfl, rfl, rfl, ?_⟩
  intro severity
  simp only [create_fallback_plan]
  split_ifs <;> rfl

/-- A raw step whose action lies outside the closed vocabulary and whose
priority is unrecognized, used to exercise `_validate_plan`'s rewrites. -/
def c2raw : List RawStep :=
  [⟨none, some "launch_drone", some "urgent", none, some "deter intruder"⟩]

/-- C2: `_validate_plan` returns a plan of equal (hence equal-or-greater)
length whose actions all lie in the closed vocabulary; an out-of-vocabulary
action is rewritten to `log_incident` (pointwise characterization), an absent
or unrecognized priority becomes `medium`, and every step's original
rationale text is retained position by position. -/
theorem validate_plan_closed_vocabulary (raw : List RawStep) :
    raw.length ≤ (validate_plan raw).length ∧
    (∀ st ∈ validate_plan raw, st.action ∈ VALID_ACTIONS ∧ st.priority ∈ PRIORITIES) ∧
    (validate_plan raw).map PlanStep.action =
      raw.map (fun st =>
        if st.action.getD "log_incident" ∈ VALID_ACTIONS then st.action.getD "log_incident"
        else "log_incident") ∧
    (validate_plan raw).map PlanStep.priority =
      raw.map (fun st =>
        if st.priority.getD "medium" ∈ PRIORITIES then st.priority.getD "medium"
        else "medium") ∧
    (validate_plan raw).map PlanStep.reasoning =
      raw.map (fun st => st.reasoning.getD "") := by
  refine ⟨(validate_go_length raw 0).ge, ?_, validate_go_map_action raw 0,
    validate_go_map_priority raw 0, validate_go_map_reasoning raw 0⟩
  intro st hst
  constructor
  · have ha : st.action ∈ (validate_plan raw).map PlanStep.action :=
      List.mem_map_of_mem _ hst
    rw [validate_plan, validate_go_map_action raw 0] at ha
    obtain ⟨rst, _, heq⟩ := List.mem_map.1 ha
    rw [← heq]
    split_ifs with h
    · exact h
    · decide
  · have hp : st.priority ∈ (validate_plan raw).map PlanStep.priority :=
      List.mem_map_of_mem _ hst
    rw [validate_plan, validate_go_map_priority raw 0] at hp
    obtain ⟨rst, _, heq⟩ := List.mem_map.1 hp
    rw [← heq]
    split_ifs with h
    · exact h
    · decide

/-- C2 witness: on the concrete raw plan `c2raw` the validated plan keeps its
length and rationale, and the rewritten step's action/priority are in the
closed sets. -/
theorem validate_plan_closed_vocabulary_witness :
    c2raw.length ≤ (validate_plan c2raw).length ∧
    ("log_incident" ∈ VALID_ACTIONS ∧ "medium" ∈ PRIORITIES) ∧
    (validate_plan c2raw).map PlanStep.reasoning =
      c2raw.map (fun st => st.reasoning.getD "") := by
  have h := validate_plan_closed_vocabulary c2raw
  refine ⟨h.1, ?_, h.2.2.2.2⟩
  exact h.2.1 ⟨1, "log_incident", "medium", [], "deter intruder"⟩ (by decide)

/-- A raw step that arrives carrying its own step number `7`. -/
def c9raw : RawStep := ⟨some 7, some "monitor", some "high", none, some "observe"⟩

/-- C9 counterexample: `_validate_plan` does **not** re-number steps
sequentially — a single-step plan whose raw `step` field is `7` is returned
with step index `7`, not `1`. -/
theorem validate_plan_no_renumbering :
    (validate_plan [c9raw]).map PlanStep.step = [7] ∧ (7 : Int) ≠ 1 := by
  exact ⟨rfl, by decide⟩

/-- C9 (amended): `_validate_plan` keeps a raw step number whenever the raw
step carries one, and fills in the sequential position (number of previously
validated steps plus one) only when the `step` field is absent. -/
theorem validate_plan_step_indexing (raw : List RawStep) :
    (validate_plan raw).map PlanStep.step =
      List.zipWith (fun st i => st.step.getD (Int.ofNat i)) raw
        (List.range' 1 raw.length) := by
  exact validate_go_map_step raw 0

end NeuroAegis

namespace NeuroAegis

/-! ## Vision Agent (docs/TECHNICAL_DOCUMENTATION.md §9.1) -/

/-- A parsed analysis object as decoded from the model's JSON: every field may
be absent.  A field whose JSON value has the wrong type (the `isinstance`
list checks) is outside this embedding; no property under verification
depends on that branch. -/
structure RawAnalysis where
  incident : Option Bool
  type : Option String
  severity : Option String
  confidence : Option Int
  reasoning : Option String
  subjects : Option (List String)
  recommended_actions : Option (List String)
deriving DecidableEq, Repr

/-- A validated analysis as produced by `VisionAgent._validate_result` /
`VisionAgent._default_result`: all fields present. -/
structure VResult where
  incident : Bool
  type : String
  severity : String
  confidence : Int
  reasoning : String
  subjects : List String
  recommended_actions : List String
deriving DecidableEq, Repr

/-- `VisionAgent._validate_result`: fill defaults and clamp `confidence`
with `max(0, min(100, ...))`. -/
def validate_result (result : RawAnalysis) : VResult :=
  { incident := result.incident.getD false
    type := result.type.getD "unknown"
    severity := result.severity.getD "low"
    confidence := max 0 (min 100 (result.confidence.getD 0))
    reasoning := result.reasoning.getD "No reasoning provided"
    subjects := result.subjects.getD []
    recommended_actions := result.recommended_actions.getD [] }

/-- `VisionAgent._default_result`: safe default returned on any error. -/
def default_result (error_msg : String) : VResult :=
  { incident := false
    type := "error"
    severity := "low"
    confidence := 0
    reasoning := "Analysis failed: " ++ error_msg
    subjects := []
    recommended_actions := [] }

/-- The `try/except` result phase of `VisionAgent.process`: a successfully
parsed JSON object is validated; any failure (parse error included) is caught
and replaced by `_default_result(str(e))`.  The `Option` argument models the
outcome of `json.loads` on the raw inference text. -/
def vision_process_result (parsed : Option RawAnalysis) (errMsg : String) : VResult :=
  match parsed with
  | some r => validate_result r
  | none => default_result errMsg

/-! ## Frontend response parsing (frontend/src/services/geminiService.ts) -/

/-- The frontend analysis object after `parseResponse`'s in-place mutations:
`incident` is forced to a boolean, the other fields keep whatever shape the
JSON supplied. -/
structure AnalysisResponse where
  incident : Bool
  type : Option String
  severity : Option String
  confidence : Option Int
  reasoning : Option String
  subjects : Option (List String)
  recommended_actions : Option (List String)
deriving DecidableEq, Repr

/-- The code-fence stripping at the top of `parseResponse`: trim, and if the
text starts with three backticks remove every occurrence of the fence markers
and trim again. -/
def cleanFences (text : String) : String :=
  let t := text.trim
  if t.startsWith "\x60\x60\x60" then
    ((t.replace "\x60\x60\x60json" "").replace "\x60\x60\x60" "").trim
  else t

/-- The mutation phase of `parseResponse` after `JSON.parse` succeeds:
`severity` is lower-cased when truthy (an empty string is falsy and kept
as-is), and `incident` defaults to `false` when `undefined`.  No other field
is touched — in particular `confidence` passes through unclamped. -/
def parseNormalize (parsed : RawAnalysis) : AnalysisResponse :=
  { incident := parsed.incident.getD false
    type := parsed.type
    severity := parsed.severity.map (fun s => if s.isEmpty then s else s.toLower)
    confidence := parsed.confidence
    reasoning := parsed.reasoning
    subjects := parsed.subjects
    recommended_actions := parsed.recommended_actions }

/-- `parseResponse`: empty text and `JSON.parse` failures yield `null`
(embedded as `none`); otherwise the parsed object is normalized in place.
`JSON.parse` is an external runtime primitive, passed here as the function
argument `jsonParse` (`none` models a thrown `SyntaxError`, caught by the
surrounding `try`). -/
def parseResponse (jsonParse : String → Option RawAnalysis) (text : String) :
    Option AnalysisResponse :=
  if text.isEmpty then none
  else
    match jsonParse (cleanFences text) with
    | some parsed => some (parseNormalize parsed)
    | none => none

/-- The scenario-1 analysis JSON of the specification, already decoded:
`{"incident": false, "type": "normal", "severity": "low", "confidence": 150,
"reasoning": "ok", "subjects": [], "recommended_actions": []}`. -/
def scenario1Raw : RawAnalysis :=
  ⟨some false, some "normal", some "low", some 150, some "ok", some [], some []⟩

/-- The raw text of the scenario-1 analysis JSON. -/
def scenario1Text : String :=
  "\x7b\"incident\": false, \"type\":\"normal\",\"severity\":\"low\",\"confidence\":150,\"reasoning\":\"ok\",\"subjects\":[],\"recommended_actions\":[]\x7d"

end NeuroAegis

namespace NeuroAegis

set_option maxRecDepth 20000 in
/-- C3 counterexample: the frontend normalizer does **not** clamp
`confidence` — on the scenario-1 input (confidence 150) `parseResponse`
returns the value 150 unchanged, not 100.  (`JSON.parse` is instantiated
with the decoding of the scenario-1 text into `scenario1Raw`.) -/
theorem parseResponse_no_confidence_clamp :
    (parseResponse (fun _ => some scenario1Raw)
        scenario1Text).map AnalysisResponse.confidence = some (some 150) ∧
    ¬ (150 : Int) ≤ 100 := by
  exact ⟨rfl, by decide⟩

/-- C3 (amended): the backend normalizer `_validate_result` always clamps
`confidence` into [0,100] and maps the scenario-1 input (confidence 150) to
exactly 100, but the frontend `parseResponse` stores the parsed confidence
unclamped. -/
theorem validate_result_confidence_clamped :
    (∀ raw : RawAnalysis,
      0 ≤ (validate_result raw).confidence ∧ (validate_result raw).confidence ≤ 100) ∧
    (validate_result scenario1Raw).confidence = 100 ∧
    (parseNormalize scenario1Raw).confidence = some 150 := by
  refine ⟨fun raw => ⟨le_max_left 0 _, ?_⟩, rfl, rfl⟩
  exact max_le (by norm_num) (min_le_left 100 _)

/-- C4 counterexample: on unparseable inference text the frontend pipeline
caller receives `null`, not a safe default analysis — `parseResponse` with a
failing `JSON.parse` returns `none`. -/
theorem parseResponse_unparseable_returns_null :
    parseResponse (fun _ => none) "not json" = none ∧
    (none : Option AnalysisResponse) ≠ some
      ⟨false, some "error", some "low", some 0, some "Analysis failed: not json",
       some [], some []⟩ := by
  exact ⟨rfl, by decide⟩

/-- C4 (amended): normalization never throws (both normalizers are total, and
every failure path is caught); the **backend** caller receives the safe
default — `incident = false`, `confidence = 0`, a reasoning string carrying
the failure cause — while the **frontend** pipeline caller receives `null`
rather than a default analysis object. -/
theorem vision_process_safe_default (errMsg : String) :
    vision_process_result none errMsg = default_result errMsg ∧
    (default_result errMsg).incident = false ∧
    (default_result errMsg).confidence = 0 ∧
    (default_result errMsg).reasoning = "Analysis failed: " ++ errMsg ∧
    parseResponse (fun _ => none) "not json" = none := by
  exact ⟨rfl, rfl, rfl, rfl, rfl⟩

/-- C7 counterexample: `_validate_result` neither lower-cases nor validates
`severity` against the enum — an input with `severity = "EXTREME"` is stored
verbatim, outside {low, medium, high, critical}. -/
theorem validate_result_severity_not_validated :
    (validate_result ⟨none, none, some "EXTREME", none, none, none, none⟩).severity
        = "EXTREME" ∧
    "EXTREME" ∉ ["low", "medium", "high", "critical"] := by
  exact ⟨rfl, by decide⟩

/-- C7 (amended): the backend normalizer passes `severity` through verbatim,
defaulting to `low` only when the field is absent, and the frontend
`parseResponse` lower-cases a present (non-empty, i.e. truthy) severity;
neither validates against the {low, medium, high, critical} enum, so a
normalized analysis can carry a severity outside it. -/
theorem severity_passthrough_characterization :
    (∀ raw : RawAnalysis, (validate_result raw).severity = raw.severity.getD "low") ∧
    (∀ raw : RawAnalysis, ∀ s : String, raw.severity = some s → s.isEmpty = false →
      (parseNormalize raw).severity = some s.toLower) ∧
    (validate_result ⟨none, none, none, none, none, none, none⟩).severity = "low" := by
  refine ⟨fun raw => rfl, fun raw s hs he => ?_, rfl⟩
  simp [parseNormalize, hs, he]

/-- C7 witness: on a concrete analysis carrying `severity = "EXTREME"`, the
backend stores it verbatim and the frontend stores its lower-casing. -/
theorem severity_passthrough_witness :
    (validate_result ⟨none, none, some "EXTREME", none, none, none, none⟩).severity
        = (some "EXTREME").getD "low" ∧
    (parseNormalize ⟨none, none, some "EXTREME", none, none, none, none⟩).severity
        = some ("EXTREME".toLower) := by
  refine ⟨severity_passthrough_characterization.1 _, ?_⟩
  exact severity_passthrough_characterization.2.1 _ "EXTREME" rfl rfl

end NeuroAegis

namespace NeuroAegis

/-! ## Frontend service state and model selection
(frontend/src/services/geminiService.ts, frontend/src/constants.ts) -/

/-- `GEMINI_CONFIG.FLASH_MODEL`. -/
def FLASH_MODEL : String := "gemini-3-flash-preview"

/-- `GEMINI_CONFIG.PRO_MODEL`. -/
def PRO_MODEL : String := "gemini-3-pro-preview"

/-- `GEMINI_CONFIG.ESCALATE_TO_PRO_THRESHOLD`. -/
def ESCALATE_TO_PRO_THRESHOLD : Int := 70

/-- `GEMINI_CONFIG.ENABLE_AUTO_ESCALATION`. -/
def ENABLE_AUTO_ESCALATION : Bool := true

/-- `FEATURES.ENABLE_THOUGHT_SIGNATURES`. -/
def ENABLE_THOUGHT_SIGNATURES : Bool := false

/-- JavaScript truthiness of an optional string: `undefined` and `""` are
falsy. -/
def truthyStr : Option String → Bool
  | none => false
  | some s => !s.isEmpty

/-- JavaScript truthiness of an optional number: `undefined` and `0` are
falsy. -/
def truthyInt : Option Int → Bool
  | none => false
  | some n => n != 0

/-- One metrics record pushed by `trackMetrics`.  `estimatedCost` is a
JavaScript float, embedded as a rational. -/
structure AnalysisMetrics where
  model : String
  thinkingLevel : String
  tokensUsed : Nat
  durationMs : Nat
  estimatedCost : ℚ
  escalated : Bool
deriving DecidableEq

/-- The module-level mutable state of `geminiService.ts`: the
thought-signature map (association list keyed by incident id), the
recent-threat counter and the metrics buffer. -/
structure ServiceState where
  thoughtSignatures : List (String × String)
  recentThreatCount : Int
  analysisMetrics : List AnalysisMetrics
deriving DecidableEq

/-- The `context` argument of `analyzeFrame` / `selectModel`. -/
structure AnalyzeContext where
  frameNumber : Option Nat
  incidentId : Option String
  threatLevel : Option Int
  isEvidence : Option Bool
deriving DecidableEq

/-- `selectModel`: incident in progress → Pro; else auto-escalation on a
truthy threat level above the threshold → Pro; else more than 3 recent
threats → Pro; else Flash.  Reads the module state's `recentThreatCount`. -/
def selectModel (s : ServiceState) (context : AnalyzeContext) : String :=
  if truthyStr context.incidentId then PRO_MODEL
  else if ENABLE_AUTO_ESCALATION && truthyInt context.threatLevel
      && (context.threatLevel.getD 0 > ESCALATE_TO_PRO_THRESHOLD) then PRO_MODEL
  else if s.recentThreatCount > 3 then PRO_MODEL
  else FLASH_MODEL

/-- `selectModel` as a state transformer: its body only reads module state,
it assigns to nothing. -/
def selectModelSt (s : ServiceState) (context : AnalyzeContext) :
    String × ServiceState :=
  (selectModel s context, s)

/-- The specification's engine tiers (`InferenceConfig.tier`). -/
inductive Tier
  | fast
  | deep
deriving DecidableEq, Repr

/-- Modelled from the spec's words (§4.1 Configuration Selector), for the
refinement claim C5: first-match-wins rules mapping risk estimate,
investigation id and recent incident pressure to an engine tier. -/
def specSelectTier (riskEstimate : Int) (investigationId : Option String)
    (recentIncidentPressure : Int) (escalationThreshold : Int) : Tier :=
  if investigationId.isSome then Tier.deep
  else if riskEstimate > escalationThreshold then Tier.deep
  else if recentIncidentPressure > 3 then Tier.deep
  else Tier.fast

/-- The tier a selected model name corresponds to: the Pro model is the deep
tier, the Flash model the fast tier. -/
def tierOfModel (m : String) : Tier :=
  if m = PRO_MODEL then Tier.deep else Tier.fast

end NeuroAegis

namespace NeuroAegis

/-- C5: `selectModel` refines the specification's first-match-wins rules with
the default threshold 70 — a present (non-empty) investigation id always
yields the deep tier, otherwise risk estimate strictly above 70 does,
otherwise recent incident pressure strictly above 3 does, otherwise the fast
tier is chosen.  (An absent threat level maps to risk estimate 0.) -/
theorem selectModel_refines_spec (s : ServiceState) (context : AnalyzeContext)
    (hid : context.incidentId ≠ some "") :
    tierOfModel (selectModel s context) =
      specSelectTier (context.threatLevel.getD 0) context.incidentId
        s.recentThreatCount 70 := by
  have hPro : tierOfModel PRO_MODEL = Tier.deep := by decide
  have hFlash : tierOfModel FLASH_MODEL = Tier.fast := by decide
  obtain ⟨fn, iid, tl, ev⟩ := context
  simp only [ne_eq] at hid
  unfold selectModel specSelectTier
  dsimp only
  cases iid with
  | some id =>
    have hne : ¬ id.isEmpty = true := fun h =>
      hid (by rw [(String.isEmpty_iff _).1 h])
    rw [if_pos (by simp [truthyStr, hne]), hPro, if_pos (by simp)]
  | none =>
    rw [if_neg (show ¬ truthyStr (none : Option String) = true by simp [truthyStr]),
      if_neg (show ¬ (none : Option String).isSome = true by simp)]
    cases tl with
    | none =>
      rw [if_neg (by simp [truthyInt]), Option.getD_none,
        if_neg (by omega : ¬ (0 : Int) > 70)]
      by_cases h3 : s.recentThreatCount > 3
      · rw [if_pos h3, if_pos h3, hPro]
      · rw [if_neg h3, if_neg h3, hFlash]
    | some v =>
      rw [Option.getD_some]
      by_cases hv : v > 70
      · rw [if_pos (by
            simp [ENABLE_AUTO_ESCALATION, truthyInt, ESCALATE_TO_PRO_THRESHOLD]
            omega), if_pos hv, hPro]
      · rw [if_neg (by
            simp [ENABLE_AUTO_ESCALATION, truthyInt, ESCALATE_TO_PRO_THRESHOLD]
            omega), if_neg hv]
        by_cases h3 : s.recentThreatCount > 3
        · rw [if_pos h3, if_pos h3, hPro]
        · rw [if_neg h3, if_neg h3, hFlash]

/-- C5 witness: with an ongoing investigation the Pro model is selected and
its tier is deep; discharges the non-empty-id hypothesis at
`incidentId = "inc-1"`. -/
theorem selectModel_refines_spec_witness :
    tierOfModel (selectModel ⟨[], 0, []⟩ ⟨some 1, some "inc-1", some 10, none⟩) =
      specSelectTier ((some (10 : Int)).getD 0) (some "inc-1") 0 70 := by
  exact selectModel_refines_spec ⟨[], 0, []⟩ ⟨some 1, some "inc-1", some 10, none⟩
    (by decide)

/-- C8: `selectModel` is a pure, deterministic function of its declared
inputs — any two module states and contexts that agree on the recent threat
count, the incident id and the threat level produce the same model choice,
regardless of the thought-signature map, the metrics buffer, the frame
number or the evidence flag; and the state-transformer form leaves the
module state untouched. -/
theorem selectModel_pure_deterministic (s₁ s₂ : ServiceState)
    (c₁ c₂ : AnalyzeContext)
    (hc : s₁.recentThreatCount = s₂.recentThreatCount)
    (hi : c₁.incidentId = c₂.incidentId)
    (ht : c₁.threatLevel = c₂.threatLevel) :
    (selectModelSt s₁ c₁).1 = (selectModelSt s₂ c₂).1 ∧
    (selectModelSt s₁ c₁).2 = s₁ := by
  refine ⟨?_, rfl⟩
  simp only [selectModelSt, selectModel, hc, hi, ht]

/-- C8 witness: two states differing in their signature maps and metrics, and
two contexts differing in frame number and evidence flag, but agreeing on the
three declared inputs, select the same model. -/
theorem selectModel_pure_deterministic_witness :
    (selectModelSt ⟨[("inc-1", "sig")], 5, []⟩ ⟨some 1, none, some 80, some true⟩).1 =
      (selectModelSt ⟨[], 5, [⟨"m", "standard", 1, 1, 0, false⟩]⟩
        ⟨some 2, none, some 80, none⟩).1 ∧
    (selectModelSt ⟨[("inc-1", "sig")], 5, []⟩ ⟨some 1, none, some 80, some true⟩).2 =
      ⟨[("inc-1", "sig")], 5, []⟩ := by
  exact selectModel_pure_deterministic _ _ _ _ rfl rfl rfl

end NeuroAegis

namespace NeuroAegis

/-! ## Request building and the thought-signature store
(frontend/src/services/geminiService.ts `buildContentsWithContext`,
`analyzeFrame`) -/

/-- A part of a request content block. -/
inductive Part
  | thoughtSig (sig : String)
  | text (t : String)
  | inlineData (mimeType : String) (data : String)
deriving DecidableEq, Repr

/-- One content block of the request payload. -/
structure Content where
  role : String
  parts : List Part
deriving DecidableEq, Repr

/-- The frontend system prompt (`SYSTEM_INSTRUCTION` in constants.ts); its
full text is immaterial to every property under verification and is
abbreviated to its first line. -/
def SYSTEM_INSTRUCTION : String :=
  "You are NeuroAegisCortex, an elite autonomous security analysis system powered by advanced neural networks."

/-- `Map.get` on the thought-signature map, embedded as association-list
lookup. -/
def lookupSig (sigs : List (String × String)) (id : String) : Option String :=
  (sigs.find? (fun p => p.1 = id)).map Prod.snd

/-- The data-URL stripping at the top of `buildContentsWithContext`:
`base64Image.includes(",") ? base64Image.split(",")[1] : base64Image`. -/
def cleanBase64 (base64Image : String) : String :=
  if base64Image.contains ',' then ((base64Image.splitOn ",").drop 1).headD ""
  else base64Image

/-- `buildContentsWithContext`: prepend a model-role continuation block only
when a previous signature exists for the incident id *and* the
thought-signature feature flag is on, then push the user block with the
system instruction and the image. -/
def buildContentsWithContext (sigs : List (String × String))
    (base64Image : String) (incidentId : Option String) : List Content :=
  let clean := cleanBase64 base64Image
  let previousSignature : Option String :=
    match incidentId with
    | some id => lookupSig sigs id
    | none => none
  let pre : List Content :=
    if truthyStr previousSignature && ENABLE_THOUGHT_SIGNATURES then
      [⟨"model", [Part.thoughtSig (previousSignature.getD "")]⟩]
    else []
  pre ++ [⟨"user", [Part.text SYSTEM_INSTRUCTION,
                    Part.inlineData "image/jpeg" clean]⟩]

/-- `trackMetrics`: push the record and cap the buffer at 100 entries
(`shift()` drops the oldest). -/
def trackMetrics (ms : List AnalysisMetrics) (m : AnalysisMetrics) :
    List AnalysisMetrics :=
  let ms' := ms ++ [m]
  if ms'.length > 100 then ms'.drop 1 else ms'

/-- The state update performed by `analyzeFrame`'s success path: metrics are
tracked and the threat counter is bumped when the parsed analysis flags an
incident.  The response's thought signature (`responseSig`) is **never
written anywhere** — the shipped service contains no
`thoughtSignatures.set(...)` call, so the signature map is returned
unchanged. -/
def analyzeFrameOnSuccess (s : ServiceState) (_incidentId : Option String)
    (_responseSig : Option String) (parsedIncident : Bool)
    (m : AnalysisMetrics) : ServiceState :=
  { thoughtSignatures := s.thoughtSignatures
    recentThreatCount :=
      if parsedIncident then s.recentThreatCount + 1 else s.recentThreatCount
    analysisMetrics := trackMetrics s.analysisMetrics m }

/-- Whether a built payload carries a continuation token (a model-role
thought-signature part). -/
def hasSigPart (cs : List Content) : Bool :=
  cs.any (fun c => c.parts.any (fun p =>
    match p with
    | Part.thoughtSig _ => true
    | _ => false))

/-- The metrics record of the first scenario-4 call. -/
def m0 : AnalysisMetrics := ⟨"gemini-3-pro-preview", "standard", 1000, 250, 0, false⟩

end NeuroAegis

namespace NeuroAegis

/-- C6 (code bug, evaluated at the failing input): two frames for
`incidentId = "inc-1"` back-to-back.  After the first successful call —
whose response carries the continuation token `"sig-1"` — the signature map
is still empty, because `analyzeFrame` never calls
`thoughtSignatures.set(...)` (the store prescribed by the repository's own
upgrade guide), and the second request's built payload therefore contains no
continuation token at all. -/
theorem secondPayload_missing_continuation_token :
    (analyzeFrameOnSuccess ⟨[], 0, []⟩ (some "inc-1") (some "sig-1") true m0
      ).thoughtSignatures = [] ∧
    hasSigPart (buildContentsWithContext
      (analyzeFrameOnSuccess ⟨[], 0, []⟩ (some "inc-1") (some "sig-1") true m0
        ).thoughtSignatures "imgdata" (some "inc-1")) = false := by
  exact ⟨rfl, rfl⟩

end NeuroAegis

namespace NeuroAegis

/-! ## The recent-threat pressure counter
(`recentThreatCount` in frontend/src/services/geminiService.ts) -/

/-- The events that touch `recentThreatCount`: a completed analysis whose
parsed result may flag an incident (`recentThreatCount++` with a decrement
scheduled 300000 ms later), the firing of one such scheduled decrement
(`recentThreatCount = Math.max(0, recentThreatCount - 1)`), and
`resetMetrics` (`recentThreatCount = 0`). -/
inductive ThreatEvent
  | analyzed (incident : Bool)
  | timerFire
  | reset
deriving DecidableEq, Repr

/-- The counter together with the number of scheduled, not-yet-fired
decrement timers. -/
structure ThreatState where
  count : Int
  pendingTimers : Nat
deriving DecidableEq, Repr

/-- Module initialization: `let recentThreatCount = 0`, no timers pending. -/
def threatInit : ThreatState := ⟨0, 0⟩

/-- The transition function of the counter.  An increment schedules exactly
one decrement; a timer can only fire while one is pending; the decrement is
clamped at zero by `Math.max`; `resetMetrics` zeroes the counter (scheduled
timers keep running, their later firing is again clamped). -/
def threatStep (s : ThreatState) : ThreatEvent → ThreatState
  | ThreatEvent.analyzed incident =>
    if incident then ⟨s.count + 1, s.pendingTimers + 1⟩ else s
  | ThreatEvent.timerFire =>
    if s.pendingTimers = 0 then s else ⟨max 0 (s.count - 1), s.pendingTimers - 1⟩
  | ThreatEvent.reset => ⟨0, s.pendingTimers⟩

/-- The states the counter can reach from module initialization. -/
inductive ThreatReachable : ThreatState → Prop
  | init : ThreatReachable threatInit
  | step (s : ThreatState) (e : ThreatEvent) :
      ThreatReachable s → ThreatReachable (threatStep s e)

end NeuroAegis

namespace NeuroAegis

/-- C10: the recent-threat counter is never negative in any reachable state —
it starts at 0, only incident-flagging analyses increment it, the scheduled
decrement is clamped at zero, and `resetMetrics` restores it to 0 from any
state. -/
theorem recentThreatCount_nonneg (s : ThreatState) (h : ThreatReachable s) :
    0 ≤ s.count ∧ (threatStep s ThreatEvent.reset).count = 0 := by
  refine ⟨?_, rfl⟩
  induction h with
  | init => exact le_refl 0
  | step s' e _ ih =>
    cases e with
    | analyzed incident =>
      by_cases hi : incident
      · simp only [threatStep, if_pos hi]
        omega
      · simp only [threatStep, if_neg hi]
        exact ih
    | timerFire =>
      by_cases hp : s'.pendingTimers = 0
      · simp only [threatStep, if_pos hp]
        exact ih
      · simp only [threatStep, if_neg hp]
        exact le_max_left 0 _
    | reset => exact le_refl 0

/-- C10 witness: the state reached by an incident-flagging analysis followed
by two timer firings is reachable and its counter is non-negative (the
second firing is clamped at zero). -/
theorem recentThreatCount_nonneg_witness :
    0 ≤ (threatStep (threatStep (threatStep threatInit
        (ThreatEvent.analyzed true)) ThreatEvent.timerFire)
        ThreatEvent.timerFire).count ∧
    (threatStep (threatStep (threatStep (threatStep threatInit
        (ThreatEvent.analyzed true)) ThreatEvent.timerFire)
        ThreatEvent.timerFire) ThreatEvent.reset).count = 0 := by
  exact recentThreatCount_nonneg _
    (ThreatReachable.step _ _ (ThreatReachable.step _ _
      (ThreatReachable.step _ _ ThreatReachable.init)))

end NeuroAegis
